import Mathlib

/-!
Verification of the PopUpVideo facts-generation backend (src/backend/app.py).

The Python source is shallowly embedded: strings are lists of characters,
`re.search`/`re.sub` with `re.IGNORECASE` are realised by a small backtracking
regular-expression engine whose result order matches Python's preference order
(leftmost position, alternatives left to right, greedy quantifiers), the Flask
endpoint becomes a pure function from an environment (model client presence,
model responses per attempt, transcript lookup result) and a cache to a new
cache, an HTTP response and an effect count.
-/

namespace PopUpVideo

/-- Python strings are embedded as lists of characters. -/
abbrev Str := List Char

/-- Word characters for the regex `\b` and `\w*` classes (ASCII fragment of
Python's definition, which is what the source's patterns exercise). -/
def isWordChar (c : Char) : Bool :=
  c.isAlpha || c.isDigit || c == '_'

/-- Whitespace characters for the regex `\s` class (ASCII fragment of
Python's definition). -/
def isSpaceChar (c : Char) : Bool :=
  c == ' ' || c == '\t' || c == '\n' || c == '\r' || c == Char.ofNat 11 || c == Char.ofNat 12

/-- Python `str.strip()`: remove leading and trailing whitespace. -/
def pyStrip (s : Str) : Str :=
  ((s.dropWhile isSpaceChar).reverse.dropWhile isSpaceChar).reverse

/-- Syntax of the regular expressions appearing in app.py: character classes,
sequencing, alternation, greedy star, greedy option and the word boundary. -/
inductive Re where
  | eps : Re
  | cls (p : Char → Bool) : Re
  | seq (a b : Re) : Re
  | alt (a b : Re) : Re
  | star (a : Re) : Re
  | opt (a : Re) : Re
  | wb : Re

/-- Concatenation of a list of regexes. -/
def rcat : List Re → Re
  | [] => .eps
  | [r] => r
  | r :: rs => .seq r (rcat rs)

/-- Alternation of a list of regexes, tried left to right as Python does. -/
def ralts : List Re → Re
  | [] => .cls (fun _ => false)
  | [r] => r
  | r :: rs => .alt r (ralts rs)

/-- A single character, case-insensitively (all patterns in app.py are
compiled with `re.IGNORECASE`). -/
def chI (c : Char) : Re := .cls (fun d => d.toLower == c.toLower)

/-- A literal string, case-insensitively. -/
def litI (s : String) : Re := rcat (s.toList.map chI)

/-- Greedy `\s*`. -/
def wsStar : Re := .star (.cls isSpaceChar)

/-- `\d+`. -/
def digits1 : Re := .seq (.cls Char.isDigit) (.star (.cls Char.isDigit))

/-- Bind for lists (kept local so the development only relies on core recursion). -/
def listBind : List α → (α → List β) → List β
  | [], _ => []
  | a :: l, f => f a ++ listBind l f

/-- Size of a regex, used to compute a sufficient fuel for the matcher. -/
def reSize : Re → Nat
  | .eps => 1
  | .cls _ => 1
  | .seq a b => reSize a + reSize b + 1
  | .alt a b => reSize a + reSize b + 1
  | .star a => reSize a + 1
  | .opt a => reSize a + 1
  | .wb => 1

/-- Backtracking matcher.  `mrun fuel r prev s` returns, in Python's
backtracking preference order, every way `r` can match a prefix of `s`;
each result carries the last consumed character (for later `\b` tests) and
the unconsumed remainder.  `prev` is the character just before `s` in the
subject string, `none` at the start of the subject. -/
def mrun : Nat → Re → Option Char → Str → List (Option Char × Str)
  | 0, _, _, _ => []
  | fuel + 1, re, prev, s =>
    match re with
    | .eps => [(prev, s)]
    | .cls p =>
      match s with
      | [] => []
      | c :: rest => if p c then [(some c, rest)] else []
    | .seq a b => listBind (mrun fuel a prev s) (fun pr => mrun fuel b pr.1 pr.2)
    | .alt a b => mrun fuel a prev s ++ mrun fuel b prev s
    | .opt a => mrun fuel a prev s ++ [(prev, s)]
    | .wb =>
      let before := match prev with | none => false | some c => isWordChar c
      let after := match s with | [] => false | c :: _ => isWordChar c
      if before != after then [(prev, s)] else []
    | .star a =>
      listBind (mrun fuel a prev s) (fun pr => mrun fuel (.star a) pr.1 pr.2) ++ [(prev, s)]

/-- Fuel sufficient for `mrun` on the patterns of app.py (whose starred
bodies always consume at least one character). -/
def bigFuel (r : Re) (s : Str) : Nat := (reSize r + 2) * (s.length + 2)

/-- Can `r` match starting exactly at the head of `s` (with `prev` the
character before `s`)? -/
def matchesAt (fuel : Nat) (r : Re) (prev : Option Char) (s : Str) : Bool :=
  !(mrun fuel r prev s).isEmpty

/-- Search at every position, left to right: Python's `re.search(...) is not None`. -/
def reSearchAux (r : Re) (fuel : Nat) : Option Char → Str → Bool
  | prev, [] => matchesAt fuel r prev []
  | prev, c :: rest => matchesAt fuel r prev (c :: rest) || reSearchAux r fuel (some c) rest

/-- Python `re.search(pattern, s, re.IGNORECASE) is not None`. -/
def reSearch (r : Re) (s : Str) : Bool :=
  reSearchAux r (bigFuel r s) none s

/-- One step tail of `re.sub`: at each position try Python's preferred match;
on a (non-empty) match drop the matched characters and continue after it,
otherwise emit the character and move on.  `gas` bounds the number of steps. -/
def reSubAux (r : Re) (fuel : Nat) : Nat → Option Char → Str → Str
  | 0, _, s => s
  | gas + 1, prev, s =>
    match (mrun fuel r prev s).head? with
    | some pr =>
      if pr.2.length < s.length then reSubAux r fuel gas pr.1 pr.2
      else
        match s with
        | [] => []
        | c :: cs => c :: reSubAux r fuel gas (some c) cs
    | none =>
      match s with
      | [] => []
      | c :: cs => c :: reSubAux r fuel gas (some c) cs

/-- Python `re.sub(pattern, '', s, flags=re.IGNORECASE)`. -/
def reSub (r : Re) (s : Str) : Str :=
  reSubAux r (bigFuel r s) (s.length + 1) none s

/-- Python `s.split(sep, 1)` for a non-empty separator: split at the first
occurrence, returning `none` when the separator does not occur (which is also
Python's `sep in s` test). -/
def splitOnce (sep : Str) : Str → Option (Str × Str)
  | [] => none
  | c :: rest =>
    if sep.isPrefixOf (c :: rest) then some ([], (c :: rest).drop sep.length)
    else
      match splitOnce sep rest with
      | some p => some (c :: p.1, p.2)
      | none => none

/-- Python `s.split(sep)` (unbounded) for a non-empty separator; fuelled. -/
def splitAllFuel : Nat → Str → Str → List Str
  | 0, _, s => [s]
  | gas + 1, sep, s =>
    match splitOnce sep s with
    | none => [s]
    | some p => p.1 :: splitAllFuel gas sep p.2

/-- Python `s.split(sep)` for a non-empty separator. -/
def splitAll (sep : Str) (s : Str) : List Str := splitAllFuel (s.length + 1) sep s

/-! ## The classifier patterns (app.py lines 106-156, `is_likely_music_video`) -/

/-- Pattern `\(Official\s*(Video|Music\s*Video|Audio|MV)\)`. -/
def m_official_paren : Re :=
  rcat [chI '(', litI "Official", wsStar,
        ralts [litI "Video", rcat [litI "Music", wsStar, litI "Video"], litI "Audio", litI "MV"],
        chI ')']

/-- Pattern `\[Official\s*(Video|Music\s*Video|Audio|MV)\]`. -/
def m_official_bracket : Re :=
  rcat [chI '[', litI "Official", wsStar,
        ralts [litI "Video", rcat [litI "Music", wsStar, litI "Video"], litI "Audio", litI "MV"],
        chI ']']

/-- Pattern `\(Lyric\s*Video\)`. -/
def m_lyric_paren : Re := rcat [chI '(', litI "Lyric", wsStar, litI "Video", chI ')']

/-- Pattern `\[Lyric\s*Video\]`. -/
def m_lyric_bracket : Re := rcat [chI '[', litI "Lyric", wsStar, litI "Video", chI ']']

/-- Pattern ` - (Official|Lyric|Music)\s*(Video|Audio)`. -/
def m_dash_official : Re :=
  rcat [litI " - ", ralts [litI "Official", litI "Lyric", litI "Music"], wsStar,
        ralts [litI "Video", litI "Audio"]]

/-- Pattern `(Official|Lyric)\s*Video`. -/
def m_official_video : Re :=
  rcat [ralts [litI "Official", litI "Lyric"], wsStar, litI "Video"]

/-- Pattern `\bMV\b`. -/
def m_mv : Re := rcat [.wb, litI "MV", .wb]

/-- Pattern `\bOfficial\s*Audio\b`. -/
def m_official_audio : Re := rcat [.wb, litI "Official", wsStar, litI "Audio", .wb]

/-- The `music_indicators` list, in source order, each paired with the source
text of its pattern (used to build reason strings). -/
def music_indicators : List (String × Re) :=
  [("\\(Official\\s*(Video|Music\\s*Video|Audio|MV)\\)", m_official_paren),
   ("\\[Official\\s*(Video|Music\\s*Video|Audio|MV)\\]", m_official_bracket),
   ("\\(Lyric\\s*Video\\)", m_lyric_paren),
   ("\\[Lyric\\s*Video\\]", m_lyric_bracket),
   (" - (Official|Lyric|Music)\\s*(Video|Audio)", m_dash_official),
   ("(Official|Lyric)\\s*Video", m_official_video),
   ("\\bMV\\b", m_mv),
   ("\\bOfficial\\s*Audio\\b", m_official_audio)]

/-- Pattern `\b(Tutorial|How\s*to|Guide|Review|Unboxing|Vlog|Interview|Podcast|Gameplay|Walkthrough)\b`. -/
def nm_tutorial : Re :=
  rcat [.wb,
        ralts [litI "Tutorial", rcat [litI "How", wsStar, litI "to"], litI "Guide",
               litI "Review", litI "Unboxing", litI "Vlog", litI "Interview",
               litI "Podcast", litI "Gameplay", litI "Walkthrough"],
        .wb]

/-- Pattern `\b(Trailer|Teaser|Behind\s*the\s*Scenes|BTS|Making\s*of)\b`. -/
def nm_trailer : Re :=
  rcat [.wb,
        ralts [litI "Trailer", litI "Teaser",
               rcat [litI "Behind", wsStar, litI "the", wsStar, litI "Scenes"],
               litI "BTS", rcat [litI "Making", wsStar, litI "of"]],
        .wb]

/-- Pattern `\b(Ep\s*\d+|Episode\s*\d+|Season\s*\d+|S\d+E\d+)\b`. -/
def nm_episode : Re :=
  rcat [.wb,
        ralts [rcat [litI "Ep", wsStar, digits1], rcat [litI "Episode", wsStar, digits1],
               rcat [litI "Season", wsStar, digits1],
               rcat [litI "S", digits1, litI "E", digits1]],
        .wb]

/-- Pattern `\b(Part\s*\d+|#\d+)\b`. -/
def nm_part : Re :=
  rcat [.wb, ralts [rcat [litI "Part", wsStar, digits1], rcat [litI "#", digits1]], .wb]

/-- Pattern `\b(Live\s*Stream|Streaming)\b`. -/
def nm_livestream : Re :=
  rcat [.wb, ralts [rcat [litI "Live", wsStar, litI "Stream"], litI "Streaming"], .wb]

/-- Pattern `\b(News|Documentary|Lecture|Sermon)\b`. -/
def nm_news : Re :=
  rcat [.wb, ralts [litI "News", litI "Documentary", litI "Lecture", litI "Sermon"], .wb]

/-- The `non_music_indicators` list, in source order, with pattern source text. -/
def non_music_indicators : List (String × Re) :=
  [("\\b(Tutorial|How\\s*to|Guide|Review|Unboxing|Vlog|Interview|Podcast|Gameplay|Walkthrough)\\b", nm_tutorial),
   ("\\b(Trailer|Teaser|Behind\\s*the\\s*Scenes|BTS|Making\\s*of)\\b", nm_trailer),
   ("\\b(Ep\\s*\\d+|Episode\\s*\\d+|Season\\s*\\d+|S\\d+E\\d+)\\b", nm_episode),
   ("\\b(Part\\s*\\d+|#\\d+)\\b", nm_part),
   ("\\b(Live\\s*Stream|Streaming)\\b", nm_livestream),
   ("\\b(News|Documentary|Lecture|Sermon)\\b", nm_news)]

/-- Pattern `\b(feat\.|ft\.|featuring|remix|cover|acoustic|live|performance)\b`. -/
def music_words_re : Re :=
  rcat [.wb,
        ralts [rcat [litI "feat", chI '.'], rcat [litI "ft", chI '.'], litI "featuring",
               litI "remix", litI "cover", litI "acoustic", litI "live", litI "performance"],
        .wb]

/-- The `for pattern in ...: if re.search(pattern, title, re.IGNORECASE)` loop:
first pattern of the list matching the title, if any. -/
def find_matching (pats : List (String × Re)) (title : Str) : Option String :=
  match pats with
  | [] => none
  | p :: rest => if reSearch p.2 title then some p.1 else find_matching rest title

/-- The `' - '` artist-song format check of `is_likely_music_video`
(app.py lines 144-148). -/
def dash_format_check (title : Str) : Bool :=
  if (splitOnce " - ".toList title).isSome then
    match splitAll " - ".toList title with
    | [a, b] =>
      decide (2 ≤ a.length) && decide (a.length ≤ 50) &&
        decide (2 ≤ b.length) && decide (b.length ≤ 100)
    | _ => false
  else false

/-- `is_likely_music_video(title)` (app.py lines 106-156): non-music patterns
first (short-circuit), then music patterns, then the `Artist - Song` shape,
then music-context words, defaulting to music. -/
def is_likely_music_video (title : Str) : Bool × Str :=
  match find_matching non_music_indicators title with
  | some pat => (false, ("Contains non-music keyword: " ++ pat).toList)
  | none =>
    match find_matching music_indicators title with
    | some _ => (true, "Contains music video keywords".toList)
    | none =>
      if dash_format_check title then (true, "Has artist - song format".toList)
      else if reSearch music_words_re title then (true, "Contains music-related terms".toList)
      else (true, "No clear non-music indicators".toList)

/-! ## The title parser (app.py lines 159-196, `parse_video_title`) -/

/-- Pattern `\s*\((Official|Lyric|Music)?\s*(Video|Audio|MV|HD|4K)\)`. -/
def paren_qualifier_re : Re :=
  rcat [wsStar, chI '(', .opt (ralts [litI "Official", litI "Lyric", litI "Music"]), wsStar,
        ralts [litI "Video", litI "Audio", litI "MV", litI "HD", litI "4K"], chI ')']

/-- Pattern `\s*\[(Official|Lyric|Music)?\s*(Video|Audio|MV|HD|4K)\]`. -/
def bracket_qualifier_re : Re :=
  rcat [wsStar, chI '[', .opt (ralts [litI "Official", litI "Lyric", litI "Music"]), wsStar,
        ralts [litI "Video", litI "Audio", litI "MV", litI "HD", litI "4K"], chI ']']

/-- Lines 168-170: strip the paren qualifier, then the bracket qualifier,
then surrounding whitespace. -/
def clean_title (title : Str) : Str :=
  pyStrip (reSub bracket_qualifier_re (reSub paren_qualifier_re title))

/-- Result record of `parse_video_title`. -/
structure ParsedTitle where
  artist : Str
  song : Str
  full_title : Str
  is_music : Bool
deriving DecidableEq

/-- `parse_video_title(title)` (app.py lines 159-196): after cleaning, split
once on `" - "`, else once on `"|"`, else the `Unknown` fallback. -/
def parse_video_title (title : Str) : ParsedTitle :=
  match splitOnce " - ".toList (clean_title title) with
  | some p => ⟨pyStrip p.1, pyStrip p.2, clean_title title, true⟩
  | none =>
    match splitOnce "|".toList (clean_title title) with
    | some p => ⟨pyStrip p.1, pyStrip p.2, clean_title title, true⟩
    | none => ⟨"Unknown".toList, clean_title title, clean_title title, false⟩

/-! ## Facts, schema validation and the retrying model call
(app.py lines 26-33 and 351-392) -/

/-- A single fact, `class Fact(BaseModel)` (app.py lines 26-29).  `time` is a
Python int, `text` a Python string. -/
structure Fact where
  time : Int
  text : Str
deriving DecidableEq

/-- The pydantic `Field` constraints on `Fact`: `time` in `[0, 600]`,
`len(text)` in `[10, 250]`. -/
def factValid (f : Fact) : Bool :=
  decide (0 ≤ f.time) && decide (f.time ≤ 600) &&
    decide (10 ≤ f.text.length) && decide (f.text.length ≤ 250)

/-- The pydantic constraints on `FactsList` (app.py lines 31-33): 1 to 50
facts, each one valid. -/
def factsListValid (facts : List Fact) : Bool :=
  decide (1 ≤ facts.length) && decide (facts.length ≤ 50) && facts.all factValid

/-- A transcript entry as produced by `fetch_youtube_transcript` (app.py
lines 84-90); the stored `duration` field is never read by the embedded code
and is omitted. -/
structure TranscriptEntry where
  start : Int
  text : Str
deriving DecidableEq

/-- The per-request environment: whether the xAI client was initialised (a
credential was configured), what the model returns on each attempt (`none`
models a raised exception / network failure), the transcript-fetch outcome and
the current timestamp string. -/
structure Env where
  xai_client : Bool
  model_response : Nat → Option (List Fact)
  transcript : Option (List TranscriptEntry)
  now : Str

/-- One `chat.parse(FactsList)` call (app.py line 368): the model's raw
response for this attempt is validated against the pydantic schema; a failing
call or a schema violation raises, modelled as `none`. -/
def chat_parse (env : Env) (attempt : Nat) : Option (List Fact) :=
  match env.model_response attempt with
  | none => none
  | some raw => if factsListValid raw then some raw else none

/-- `max_retries = 3` (app.py line 356). -/
def max_retries : Nat := 3

/-- The two-fact list after the retry loop (app.py lines 389-392, commented
`Fallback if all retries failed`). -/
def all_retries_failed_fallback : List Fact :=
  [⟨10, "Error generating facts".toList⟩,
   ⟨30, "Unable to connect to fact generator".toList⟩]

/-- The body of `for attempt in range(max_retries)` (app.py lines 358-392):
on success return the parsed facts; on failure raise (`Except.error`) when
this was the last attempt, otherwise retry.  Falling off the loop would
return `all_retries_failed_fallback`.  The second component counts how many
times the model was called. -/
def grok_attempt_loop (env : Env) : List Nat → Except Unit (List Fact) × Nat
  | [] => (.ok all_retries_failed_fallback, 0)
  | attempt :: rest =>
    match chat_parse env attempt with
    | some facts => (.ok facts, 1)
    | none =>
      if attempt = max_retries - 1 then (.error (), 1)
      else
        let r := grok_attempt_loop env rest
        (r.1, r.2 + 1)

/-- `_call_grok_with_retry(prompt)` (app.py lines 351-392), paired with the
number of model calls it makes. -/
def call_grok_with_retry (env : Env) : Except Unit (List Fact) × Nat :=
  grok_attempt_loop env (List.range max_retries)

/-! ## Prompt construction (app.py lines 199-348) -/

/-- The computed timing guidance of a prompt: either derived from a known
positive duration (`end_time` and `num_facts`) or the default 10-280s window. -/
inductive TimingGuide where
  | from_duration (end_time num_facts : Int)
  | default_range
deriving DecidableEq

/-- Timing guidance of the general prompt (app.py lines 211-216):
`num_facts = max(10, min(25, int(duration / 15)))`, `end_time = duration - 10`. -/
def general_timing (duration : Option Int) : TimingGuide :=
  match duration with
  | some d => if 0 < d then .from_duration (d - 10) (max 10 (min 25 (d / 15))) else .default_range
  | none => .default_range

/-- Timing guidance of the music prompt (app.py lines 289-294):
`num_facts = max(15, min(25, int(duration / 15)))`, `end_time = duration - 10`. -/
def music_timing (duration : Option Int) : TimingGuide :=
  match duration with
  | some d => if 0 < d then .from_duration (d - 10) (max 15 (min 25 (d / 15))) else .default_range
  | none => .default_range

/-- The description excerpt (app.py lines 218 and 296): included only when a
description longer than 20 characters is supplied, truncated to 500 characters. -/
def description_context (description : Option Str) : Str :=
  match description with
  | some d =>
    if 20 < d.length then "\nVideo Description: ".toList ++ d.take 500 ++ "...".toList
    else []
  | none => []

/-- A transcript line `[{start}s] {text}` (app.py lines 227 and 304). -/
def fmt_line (e : TranscriptEntry) : Str :=
  "[".toList ++ (toString e.start).toList ++ "s] ".toList ++ e.text

/-- The sampling loop of the general prompt builder (app.py lines 224-229):
keep entry `i` when `i % 3 == 0 or i < 10 or i > len(transcript) - 10`,
breaking once 50 lines are collected. -/
def general_transcript_lines_loop (total : Nat) : Nat → List TranscriptEntry → List Str → List Str
  | _, [], acc => acc
  | i, e :: rest, acc =>
    let acc1 :=
      if i % 3 == 0 || decide (i < 10) || decide ((i : Int) > (total : Int) - 10) then
        acc ++ [fmt_line e]
      else acc
    if 50 ≤ acc1.length then acc1 else general_transcript_lines_loop total (i + 1) rest acc1

/-- The sampled transcript lines of the general prompt builder. -/
def general_transcript_lines (transcript : List TranscriptEntry) : List Str :=
  general_transcript_lines_loop transcript.length 0 transcript []

/-- `transcript_context` of the general prompt (app.py lines 221-230). -/
def general_transcript_context (transcript : Option (List TranscriptEntry)) : Str :=
  match transcript with
  | some t =>
    if t.length = 0 then []
    else
      "\n\nTranscript/Captions (sampled):\n".toList ++
        List.intercalate "\n".toList ((general_transcript_lines t).take 50)
  | none => []

/-- `transcript_context` of the music prompt (app.py lines 299-305): every
entry, unsampled. -/
def music_transcript_context (transcript : Option (List TranscriptEntry)) : Str :=
  match transcript with
  | some t =>
    if t.length = 0 then []
    else "\n\nLyrics with Timestamps:\n".toList ++ List.intercalate "\n".toList (t.map fmt_line)
  | none => []

/-- The content of a built prompt.  The surrounding instructional prose of the
two f-string templates (app.py lines 232-270 and 307-345) is fixed text; the
data interpolated into it is captured field by field. -/
inductive PromptData where
  | music (artist title video_id : Str) (duration : Option Int)
      (desc_ctx trans_ctx : Str) (timing : TimingGuide)
  | general (title video_id : Str) (duration : Option Int)
      (desc_ctx trans_ctx : Str) (timing : TimingGuide)
deriving DecidableEq

/-- What a generator function returns to the endpoint: the no-credential
fall-backs return a bare list of facts (app.py lines 204-208 and 282-286)
while the normal path returns the dict `{'facts': ..., 'prompt': ...}`
(app.py lines 273 and 348). -/
inductive GenValue where
  | bare_list (facts : List Fact)
  | facts_and_prompt (facts : List Fact) (prompt : PromptData)
deriving DecidableEq

/-- `generate_general_facts_with_grok` (app.py lines 199-273), paired with
the number of model calls made. -/
def generate_general_facts_with_grok (env : Env) (title video_id : Str)
    (duration : Option Int) (description : Option Str)
    (transcript : Option (List TranscriptEntry)) : Except Unit GenValue × Nat :=
  if !env.xai_client then
    (.ok (.bare_list
      [⟨10, "Watching: ".toList ++ title⟩,
       ⟨30, "Pop Up Video facts coming soon!".toList⟩,
       ⟨60, "Set your GROK_API_KEY environment variable to generate real facts.".toList⟩]), 0)
  else
    match call_grok_with_retry env with
    | (.ok facts, n) =>
      (.ok (.facts_and_prompt facts
        (.general title video_id duration (description_context description)
          (general_transcript_context transcript) (general_timing duration))), n)
    | (.error e, n) => (.error e, n)

/-- `generate_facts_with_grok` (app.py lines 276-348), paired with the number
of model calls made.  The `song` argument is accepted but, as in the source,
not interpolated into the prompt. -/
def generate_facts_with_grok (env : Env) (artist song title video_id : Str)
    (duration : Option Int) (description : Option Str)
    (transcript : Option (List TranscriptEntry)) : Except Unit GenValue × Nat :=
  if !env.xai_client then
    (.ok (.bare_list
      [⟨10, "This is ".toList ++ artist ++ " - ".toList ++ song ++ "!".toList⟩,
       ⟨30, "Pop Up Video facts coming soon!".toList⟩,
       ⟨60, "Set your GROK_API_KEY environment variable to generate real facts.".toList⟩]), 0)
  else
    match call_grok_with_retry env with
    | (.ok facts, n) =>
      (.ok (.facts_and_prompt facts
        (.music artist title video_id duration (description_context description)
          (music_transcript_context transcript) (music_timing duration))), n)
    | (.error e, n) => (.error e, n)

/-! ## The `/generate-facts` endpoint (app.py lines 401-504) -/

/-- The parsed request body; missing `video_id`/`title` default to the empty
string, missing `duration`/`description` to `none` (app.py lines 408-412). -/
structure RequestData where
  video_id : Str
  title : Str
  duration : Option Int
  description : Option Str

/-- The persisted/returned facts payload `facts_data` (app.py lines 480-489). -/
structure FactsData where
  videoId : Str
  title : Str
  contentType : Str
  artist : Str
  song : Str
  generatedAt : Str
  prompt : PromptData
  facts : List Fact
deriving DecidableEq

/-- The endpoint's observable HTTP outcomes. -/
inductive HttpResponse where
  | ok_cache (data : FactsData)
  | ok_generated (data : FactsData)
  | bad_request
  | server_error
deriving DecidableEq

/-- Side-effect counters of one request: transcript fetches, individual model
calls, and generator-function invocations. -/
structure Effects where
  transcript_fetches : Nat
  model_attempts : Nat
  generator_calls : Nat
deriving DecidableEq

/-- The on-disk cache: one entry per video id (`<videoId>.json` files). -/
abbrev Cache := List (Str × FactsData)

/-- `os.path.exists` + `json.load` for `<video_id>.json`. -/
def cache_lookup (cache : Cache) (id : Str) : Option FactsData :=
  match cache.find? (fun kv => kv.1 == id) with
  | some kv => some kv.2
  | none => none

/-- The routing result of app.py lines 446-477: the generator outcome plus the
`content_type`, `artist` and `song` variables set on that path. -/
structure RoutedGen where
  result : Except Unit GenValue
  attempts : Nat
  content_type : Str
  artist : Str
  song : Str

/-- App.py lines 446-477: music titles go through `parse_video_title`; a
parse falling back to `Unknown` routes to the general generator (with
`artist='Unknown'`, `song=title`), as do non-music titles (with
`artist='N/A'`, `song=title`). -/
def route_generation (env : Env) (req : RequestData)
    (transcript : Option (List TranscriptEntry)) : RoutedGen :=
  if (is_likely_music_video req.title).1 then
    if !(parse_video_title req.title).is_music &&
        ((parse_video_title req.title).artist == "Unknown".toList) then
      ⟨(generate_general_facts_with_grok env req.title req.video_id req.duration
          req.description transcript).1,
       (generate_general_facts_with_grok env req.title req.video_id req.duration
          req.description transcript).2,
       "general".toList, "Unknown".toList, req.title⟩
    else
      ⟨(generate_facts_with_grok env (parse_video_title req.title).artist
          (parse_video_title req.title).song (parse_video_title req.title).full_title
          req.video_id req.duration req.description transcript).1,
       (generate_facts_with_grok env (parse_video_title req.title).artist
          (parse_video_title req.title).song (parse_video_title req.title).full_title
          req.video_id req.duration req.description transcript).2,
       "music".toList, (parse_video_title req.title).artist, (parse_video_title req.title).song⟩
  else
    ⟨(generate_general_facts_with_grok env req.title req.video_id req.duration
        req.description transcript).1,
     (generate_general_facts_with_grok env req.title req.video_id req.duration
        req.description transcript).2,
     "general".toList, "N/A".toList, req.title⟩

/-- The `/generate-facts` handler `generate_facts` (app.py lines 401-504):
validation, cache short-circuit, transcript fetch, routing, generation, cache
write, response; any raised exception (a failed final retry, or the
`result['facts']` subscript on the bare fallback list) is caught by the
handler's `except` and becomes HTTP 500. -/
def generate_facts (env : Env) (cache : Cache) (req : RequestData) :
    Cache × HttpResponse × Effects :=
  if req.video_id.isEmpty || req.title.isEmpty then (cache, .bad_request, ⟨0, 0, 0⟩)
  else
    match cache_lookup cache req.video_id with
    | some existing => (cache, .ok_cache existing, ⟨0, 0, 0⟩)
    | none =>
      match route_generation env req env.transcript with
      | ⟨.error _, n, _, _, _⟩ => (cache, .server_error, ⟨1, n, 1⟩)
      | ⟨.ok (.bare_list _), n, _, _, _⟩ => (cache, .server_error, ⟨1, n, 1⟩)
      | ⟨.ok (.facts_and_prompt facts prompt), n, ct, artist, song⟩ =>
        ((req.video_id,
            ⟨req.video_id, req.title, ct, artist, song, env.now, prompt, facts⟩) :: cache,
         .ok_generated ⟨req.video_id, req.title, ct, artist, song, env.now, prompt, facts⟩,
         ⟨1, n, 1⟩)

/-! ## The legacy response post-processing (markdown fences)

Modelled from the spec: the pipeline iteration whose generator parses the
model's raw text (and therefore strips markdown fences first) is not under
src/ — the `_call_grok_with_retry` in src/backend/app.py delegates parsing to
the schema-constrained `chat.parse` and never sees raw text. -/

/-- Modelled from the spec: "if raw output is wrapped in a fenced code block,
strip the fence markers before structural parsing" — remove the opening
fence line (with any language tag) and the closing fence, trimming the body. -/
def strip_markdown_fences (raw : Str) : Str :=
  if "```".toList.isPrefixOf raw && "```".toList.isSuffixOf raw && decide (7 ≤ raw.length) then
    match splitOnce "\n".toList (raw.drop 3) with
    | some p => pyStrip (p.2.take (p.2.length - 3))
    | none => raw
  else raw

/-- Modelled from the spec: the legacy generator's post-processing feeds the
fence-stripped raw output to the structural parser. -/
def legacy_postprocess_and_parse (structural_parse : Str → Option (List Fact))
    (raw : Str) : Option (List Fact) :=
  structural_parse (strip_markdown_fences raw)

/-- A raw model output wrapped in a fenced code block with language tag `lang`. -/
def fence_wrap (lang body : Str) : Str :=
  "```".toList ++ lang ++ '\n' :: body ++ '\n' :: "```".toList

/-! ## Helper lemmas -/

/-- If some pattern of the list matches, the pattern loop returns a match. -/
lemma find_matching_of_any (pats : List (String × Re)) (title : Str)
    (h : pats.any (fun p => reSearch p.2 title) = true) :
    (find_matching pats title).isSome = true := by
  induction pats with
  | nil => simp at h
  | cons p rest ih =>
    by_cases hp : reSearch p.2 title = true
    · simp [find_matching, hp]
    · simp only [List.any_cons, Bool.or_eq_true] at h
      simp only [find_matching, hp, if_false, Bool.false_eq_true, false_or] at *
      exact ih h

/-- `splitOnce` splits at the first occurrence of the separator. -/
lemma splitOnce_append_first (sep pre suf : Str) (hsep : sep ≠ [])
    (h : ∀ i, i < pre.length → sep.isPrefixOf ((pre ++ sep ++ suf).drop i) = false) :
    splitOnce sep (pre ++ sep ++ suf) = some (pre, suf) := by
  induction pre with
  | nil =>
    obtain ⟨c, sep₀, rfl⟩ : ∃ c sep₀, sep = c :: sep₀ := by
      cases sep with
      | nil => exact absurd rfl hsep
      | cons c sep₀ => exact ⟨c, sep₀, rfl⟩
    have hpre : (c :: sep₀).isPrefixOf ((c :: sep₀) ++ suf) = true :=
      List.isPrefixOf_iff_prefix.mpr (List.prefix_append _ _)
    simp only [List.nil_append]
    rw [show (c :: sep₀) ++ suf = c :: (sep₀ ++ suf) from rfl]
    simp only [splitOnce]
    rw [show (c :: (sep₀ ++ suf)) = (c :: sep₀) ++ suf from rfl, hpre, if_pos rfl]
    congr 1
    exact congrArg _ (List.drop_left (c :: sep₀) suf)
  | cons c pre' ih =>
    have h0 : sep.isPrefixOf (c :: (pre' ++ sep ++ suf)) = false := by
      have := h 0 (by simp)
      simpa using this
    have hrest : splitOnce sep (pre' ++ sep ++ suf) = some (pre', suf) := by
      refine ih (fun i hi => ?_)
      have := h (i + 1) (by simpa using Nat.succ_lt_succ hi)
      simpa using this
    show splitOnce sep (c :: (pre' ++ sep ++ suf)) = some (c :: pre', suf)
    simp only [splitOnce, h0, Bool.false_eq_true, if_false, hrest]

/-- If the separator occurs nowhere, `splitOnce` returns `none`. -/
lemma splitOnce_eq_none (sep s : Str)
    (h : ∀ i, i < s.length → sep.isPrefixOf (s.drop i) = false) :
    splitOnce sep s = none := by
  induction s with
  | nil => rfl
  | cons c rest ih =>
    have h0 : sep.isPrefixOf (c :: rest) = false := by
      have := h 0 (by simp)
      simpa using this
    have hrest : splitOnce sep rest = none := by
      refine ih (fun i hi => ?_)
      have := h (i + 1) (by simpa using Nat.succ_lt_succ hi)
      simpa using this
    simp only [splitOnce, h0, Bool.false_eq_true, if_false, hrest]

/-- A successful `chat.parse` only ever returns a schema-valid facts list. -/
lemma chat_parse_valid {env : Env} {k : Nat} {facts : List Fact}
    (h : chat_parse env k = some facts) : factsListValid facts = true := by
  unfold chat_parse at h
  cases hm : env.model_response k with
  | none => rw [hm] at h; cases h
  | some raw =>
    simp only [hm] at h
    by_cases hv : factsListValid raw = true
    · rw [if_pos hv] at h
      injection h with h
      rw [← h]
      exact hv
    · rw [if_neg hv] at h
      cases h

/-- Any facts list the retry loop returns with `.ok` is schema-valid (the
unreachable post-loop fallback also is). -/
lemma grok_attempt_loop_ok_valid (env : Env) (l : List Nat) (facts : List Fact) (n : Nat)
    (h : grok_attempt_loop env l = (.ok facts, n)) : factsListValid facts = true := by
  induction l generalizing n with
  | nil =>
    simp only [grok_attempt_loop, Prod.mk.injEq, Except.ok.injEq] at h
    rw [← h.1]
    decide
  | cons a rest ih =>
    revert h
    simp only [grok_attempt_loop]
    cases ha : chat_parse env a with
    | some fs =>
      intro h
      simp only [Prod.mk.injEq, Except.ok.injEq] at h
      rw [← h.1]
      exact chat_parse_valid ha
    | none =>
      by_cases hl : a = max_retries - 1
      · rw [if_pos hl]
        intro h
        simp at h
      · rw [if_neg hl]
        intro h
        simp only [Prod.mk.injEq] at h
        exact ih (grok_attempt_loop env rest).2
          (by rw [← h.1])

/-! ## Claim C4 — non-music patterns short-circuit the classifier -/

/-- Claim C4: for every title matching at least one non-music pattern,
`is_likely_music_video` returns `false`, regardless of any co-occurring
music indicators: the non-music check is evaluated first and short-circuits. -/
theorem c4_non_music_priority (title : Str)
    (h : non_music_indicators.any (fun p => reSearch p.2 title) = true) :
    (is_likely_music_video title).1 = false := by
  have hs := find_matching_of_any non_music_indicators title h
  rcases hfind : find_matching non_music_indicators title with _ | pat
  · rw [hfind] at hs
    simp at hs
  · simp [is_likely_music_video, hfind]

/-- Witness for C4 at the concrete title `"News MV"`, which matches both the
non-music pattern `\b(News|...)\b` and the music pattern `\bMV\b`. -/
theorem c4_non_music_priority_witness :
    (is_likely_music_video "News MV".toList).1 = false :=
  c4_non_music_priority "News MV".toList (by decide)

/-! ## Claim C5 — the title parser -/

/-- Claim C5: after stripping paren/bracket qualifier suffixes and trimming,
`parse_video_title` splits on the first `" - "` (artist, song, music format),
else on the first `"|"` with the same roles, else returns
`artist="Unknown"`, `song=cleanedTitle`, `isMusicFormat=false`; in
particular on the Rick Astley title it returns the claimed record. -/
theorem c5_parse_video_title (title pre suf : Str) :
    (clean_title title = pre ++ " - ".toList ++ suf →
      (∀ i, i < pre.length →
        (" - ".toList).isPrefixOf ((pre ++ " - ".toList ++ suf).drop i) = false) →
      parse_video_title title = ⟨pyStrip pre, pyStrip suf, clean_title title, true⟩) ∧
    ((∀ i, i < (clean_title title).length →
        (" - ".toList).isPrefixOf ((clean_title title).drop i) = false) →
      clean_title title = pre ++ "|".toList ++ suf →
      (∀ i, i < pre.length →
        ("|".toList).isPrefixOf ((pre ++ "|".toList ++ suf).drop i) = false) →
      parse_video_title title = ⟨pyStrip pre, pyStrip suf, clean_title title, true⟩) ∧
    ((∀ i, i < (clean_title title).length →
        (" - ".toList).isPrefixOf ((clean_title title).drop i) = false) →
      (∀ i, i < (clean_title title).length →
        ("|".toList).isPrefixOf ((clean_title title).drop i) = false) →
      parse_video_title title = ⟨"Unknown".toList, clean_title title, clean_title title, false⟩) ∧
    parse_video_title "Rick Astley - Never Gonna Give You Up (Official Video)".toList =
      ⟨"Rick Astley".toList, "Never Gonna Give You Up".toList,
       "Rick Astley - Never Gonna Give You Up".toList, true⟩ := by
  refine ⟨?_, ?_, ?_, ?_⟩
  · intro hct hfirst
    unfold parse_video_title
    rw [hct, splitOnce_append_first _ _ _ (by decide) hfirst]
  · intro hnodash hct hfirst
    unfold parse_video_title
    rw [splitOnce_eq_none _ _ hnodash, hct,
      splitOnce_append_first _ _ _ (by decide) hfirst]
  · intro hnodash hnobar
    unfold parse_video_title
    rw [splitOnce_eq_none _ _ hnodash, splitOnce_eq_none _ _ hnobar]
  · decide

/-- Witness for C5: each branch of the parser at a concrete title. -/
theorem c5_parse_video_title_witness :
    parse_video_title "AB - CD".toList = ⟨"AB".toList, "CD".toList, "AB - CD".toList, true⟩ ∧
    parse_video_title "AB|CD".toList = ⟨"AB".toList, "CD".toList, "AB|CD".toList, true⟩ ∧
    parse_video_title "Some Random Clip".toList =
      ⟨"Unknown".toList, "Some Random Clip".toList, "Some Random Clip".toList, false⟩ :=
  ⟨(c5_parse_video_title "AB - CD".toList "AB".toList "CD".toList).1
      (by decide) (by decide),
   (c5_parse_video_title "AB|CD".toList "AB".toList "CD".toList).2.1
      (by decide) (by decide) (by decide),
   (c5_parse_video_title "Some Random Clip".toList [] []).2.2.1
      (by decide) (by decide)⟩

/-! ## Claim C7 — schema bounds on generated facts -/

/-- Claim C7: every facts collection the retrying model call returns satisfies
the pydantic bounds: 1 to 50 facts, each with `time` in `[0, 600]` and text
length in `[10, 250]`. -/
theorem c7_fact_bounds (env : Env) (facts : List Fact) (n : Nat)
    (h : call_grok_with_retry env = (.ok facts, n)) :
    (1 ≤ facts.length ∧ facts.length ≤ 50) ∧
      ∀ f ∈ facts, (0 ≤ f.time ∧ f.time ≤ 600) ∧
        (10 ≤ f.text.length ∧ f.text.length ≤ 250) := by
  have key : factsListValid facts = true :=
    grok_attempt_loop_ok_valid env (List.range max_retries) facts n h
  unfold factsListValid at key
  rw [Bool.and_eq_true, Bool.and_eq_true] at key
  obtain ⟨⟨ha, hb⟩, hc⟩ := key
  refine ⟨⟨of_decide_eq_true ha, of_decide_eq_true hb⟩, fun f hf => ?_⟩
  have hfv : factValid f = true := List.all_eq_true.mp hc f hf
  unfold factValid at hfv
  rw [Bool.and_eq_true, Bool.and_eq_true, Bool.and_eq_true] at hfv
  exact ⟨⟨of_decide_eq_true hfv.1.1.1, of_decide_eq_true hfv.1.1.2⟩,
    ⟨of_decide_eq_true hfv.1.2, of_decide_eq_true hfv.2⟩⟩

/-- Witness for C7 with a model that answers a valid singleton list on the
first attempt. -/
theorem c7_fact_bounds_witness :
    (1 ≤ ([⟨10, "0123456789".toList⟩] : List Fact).length ∧
      ([⟨10, "0123456789".toList⟩] : List Fact).length ≤ 50) ∧
    ∀ f ∈ ([⟨10, "0123456789".toList⟩] : List Fact),
      (0 ≤ f.time ∧ f.time ≤ 600) ∧ (10 ≤ f.text.length ∧ f.text.length ≤ 250) :=
  c7_fact_bounds ⟨true, fun _ => some [⟨10, "0123456789".toList⟩], none, []⟩
    [⟨10, "0123456789".toList⟩] 1 rfl

/-- Whatever the routing decision, a generator whose model call raises
propagates the error (and the attempt count) to the endpoint. -/
lemma route_result_error (env : Env) (req : RequestData)
    (transcript : Option (List TranscriptEntry)) (n : Nat)
    (hclient : env.xai_client = true)
    (hcall : call_grok_with_retry env = (.error (), n)) :
    (route_generation env req transcript).result = .error () ∧
      (route_generation env req transcript).attempts = n := by
  unfold route_generation
  split
  · split
    · constructor <;>
        simp [generate_general_facts_with_grok, hclient, hcall]
    · constructor <;>
        simp [generate_facts_with_grok, hclient, hcall]
  · constructor <;>
      simp [generate_general_facts_with_grok, hclient, hcall]

/-- Does a generator outcome carry the bare (no-credential) fallback list? -/
def bare_result : Except Unit GenValue → Bool
  | .ok (.bare_list _) => true
  | _ => false

/-- Whatever the routing decision, with no client configured the generator
returns a bare fallback list and makes no model attempt. -/
lemma route_result_bare (env : Env) (req : RequestData)
    (transcript : Option (List TranscriptEntry))
    (hclient : env.xai_client = false) :
    bare_result (route_generation env req transcript).result = true ∧
      (route_generation env req transcript).attempts = 0 := by
  unfold route_generation
  split
  · split
    · constructor <;>
        simp [bare_result, generate_general_facts_with_grok, hclient]
    · constructor <;>
        simp [bare_result, generate_facts_with_grok, hclient]
  · constructor <;>
      simp [bare_result, generate_general_facts_with_grok, hclient]

/-! ## Claim C1 — behaviour when all three model attempts fail -/

/-- Claim C1 (code behaviour at the claimed scenario): when every model-call
attempt fails, the model is attempted exactly 3 times and never a 4th — but
`_call_grok_with_retry` raises on the 3rd failure (its post-loop two-fact
fallback is unreachable), so the endpoint answers HTTP 500 instead of
succeeding with the fallback facts. -/
theorem c1_retry_exhaustion (env : Env) (cache : Cache) (req : RequestData)
    (hclient : env.xai_client = true)
    (hfail : ∀ n, n < max_retries → chat_parse env n = none) :
    call_grok_with_retry env = (.error (), 3) ∧
    ((req.video_id.isEmpty || req.title.isEmpty) = false →
      cache_lookup cache req.video_id = none →
      generate_facts env cache req = (cache, .server_error, ⟨1, 3, 1⟩)) := by
  have h0 := hfail 0 (by decide)
  have h1 := hfail 1 (by decide)
  have h2 := hfail 2 (by decide)
  have hcall : call_grok_with_retry env = (.error (), 3) := by
    unfold call_grok_with_retry
    rw [show List.range max_retries = [0, 1, 2] from rfl]
    simp [grok_attempt_loop, h0, h1, h2, max_retries]
  refine ⟨hcall, fun hne hmiss => ?_⟩
  obtain ⟨hr1, hr2⟩ := route_result_error env req env.transcript 3 hclient hcall
  unfold generate_facts
  rcases hrg : route_generation env req env.transcript with ⟨res, n, ct, a, s⟩
  rw [hrg] at hr1 hr2
  have hres : res = .error () := hr1
  have hn : n = 3 := hr2
  subst hres hn
  simp [hne, hmiss]

/-- Witness for C1: a concrete environment whose model always fails. -/
theorem c1_retry_exhaustion_witness :
    call_grok_with_retry ⟨true, fun _ => none, none, "T".toList⟩ = (.error (), 3) ∧
    generate_facts ⟨true, fun _ => none, none, "T".toList⟩ []
        ⟨"v1".toList, "T".toList, none, none⟩ =
      ([], .server_error, ⟨1, 3, 1⟩) :=
  ⟨(c1_retry_exhaustion ⟨true, fun _ => none, none, "T".toList⟩ []
      ⟨"v1".toList, "T".toList, none, none⟩ rfl (by decide)).1,
   (c1_retry_exhaustion ⟨true, fun _ => none, none, "T".toList⟩ []
      ⟨"v1".toList, "T".toList, none, none⟩ rfl (by decide)).2 (by decide) (by decide)⟩

/-! ## Claim C2 — behaviour with no model credential configured -/

/-- Claim C2 (code behaviour at the claimed scenario): with no credential the
generators short-circuit to a bare identity fallback list without any model
call — but the endpoint then subscripts that bare list with `'facts'`
(a `TypeError`), so the request ends in HTTP 500 rather than the claimed
successful response. -/
theorem c2_no_credential (env : Env) (cache : Cache) (req : RequestData)
    (title artist song video_id : Str) (dur : Option Int) (desc : Option Str)
    (tr : Option (List TranscriptEntry))
    (hclient : env.xai_client = false) :
    generate_general_facts_with_grok env title video_id dur desc tr =
      (.ok (.bare_list
        [⟨10, "Watching: ".toList ++ title⟩,
         ⟨30, "Pop Up Video facts coming soon!".toList⟩,
         ⟨60, "Set your GROK_API_KEY environment variable to generate real facts.".toList⟩]), 0) ∧
    generate_facts_with_grok env artist song title video_id dur desc tr =
      (.ok (.bare_list
        [⟨10, "This is ".toList ++ artist ++ " - ".toList ++ song ++ "!".toList⟩,
         ⟨30, "Pop Up Video facts coming soon!".toList⟩,
         ⟨60, "Set your GROK_API_KEY environment variable to generate real facts.".toList⟩]), 0) ∧
    ((req.video_id.isEmpty || req.title.isEmpty) = false →
      cache_lookup cache req.video_id = none →
      generate_facts env cache req = (cache, .server_error, ⟨1, 0, 1⟩)) := by
  refine ⟨by simp [generate_general_facts_with_grok, hclient],
    by simp [generate_facts_with_grok, hclient], fun hne hmiss => ?_⟩
  obtain ⟨hr1, hr2⟩ := route_result_bare env req env.transcript hclient
  unfold generate_facts
  rcases hrg : route_generation env req env.transcript with ⟨res, n, ct, a, s⟩
  rw [hrg] at hr1 hr2
  have hn : n = 0 := hr2
  subst hn
  rcases res with e | gv
  · simp [bare_result] at hr1
  · rcases gv with bfacts | ⟨facts, prompt⟩
    · simp [hne, hmiss]
    · simp [bare_result] at hr1

/-- Witness for C2: no credential, concrete request. -/
theorem c2_no_credential_witness :
    generate_general_facts_with_grok ⟨false, fun _ => none, none, "T".toList⟩
        "Some Random Clip".toList "v1".toList none none none =
      (.ok (.bare_list
        [⟨10, "Watching: Some Random Clip".toList⟩,
         ⟨30, "Pop Up Video facts coming soon!".toList⟩,
         ⟨60, "Set your GROK_API_KEY environment variable to generate real facts.".toList⟩]), 0) ∧
    generate_facts ⟨false, fun _ => none, none, "T".toList⟩ []
        ⟨"v1".toList, "Some Random Clip".toList, none, none⟩ =
      ([], .server_error, ⟨1, 0, 1⟩) :=
  ⟨(c2_no_credential ⟨false, fun _ => none, none, "T".toList⟩ []
      ⟨"v1".toList, "Some Random Clip".toList, none, none⟩
      "Some Random Clip".toList [] [] "v1".toList none none none rfl).1,
   (c2_no_credential ⟨false, fun _ => none, none, "T".toList⟩ []
      ⟨"v1".toList, "Some Random Clip".toList, none, none⟩
      "Some Random Clip".toList [] [] "v1".toList none none none rfl).2.2
     (by decide) (by decide)⟩

/-! ## Claim C3 — cache hits short-circuit; second identical request -/

/-- Claim C3: when the cache already holds the video id, the endpoint returns
the stored payload with source `cache` and performs no transcript fetch, no
model attempt and no generator call; consequently after any successful call a
second call with the same video id returns the same data from the cache, with
the generator invoked at most once across both calls. -/
theorem c3_cache_idempotence (env1 env2 : Env) (cache : Cache) (req : RequestData)
    (d : FactsData) (c1 : Cache) (e1 : Effects) :
    ((req.video_id.isEmpty || req.title.isEmpty) = false →
      cache_lookup cache req.video_id = some d →
      generate_facts env1 cache req = (cache, .ok_cache d, ⟨0, 0, 0⟩)) ∧
    (generate_facts env1 cache req = (c1, .ok_generated d, e1) ∨
      generate_facts env1 cache req = (c1, .ok_cache d, e1) →
      generate_facts env2 c1 req = (c1, .ok_cache d, ⟨0, 0, 0⟩) ∧
        e1.generator_calls ≤ 1) := by
  constructor
  · intro hne hit
    unfold generate_facts
    simp [hne, hit]
  · intro hor
    rcases hor with h | h
    · unfold generate_facts at h
      split at h
      · simp at h
      · rename_i hcond
        split at h
        · simp at h
        · rename_i hmiss
          rcases hrg : route_generation env1 req env1.transcript with ⟨res, n, ct, a, s⟩
          rw [hrg] at h
          rcases res with e | gv
          · simp at h
          · rcases gv with bfacts | ⟨facts, prompt⟩
            · simp at h
            · simp only [Prod.mk.injEq, HttpResponse.ok_generated.injEq] at h
              obtain ⟨hc1, hd, he⟩ := h
              have hne : (req.video_id.isEmpty || req.title.isEmpty) = false := by
                simpa using hcond
              constructor
              · unfold generate_facts
                rw [← hc1, ← hd]
                simp [hne, cache_lookup, List.find?]
              · rw [← he]
    · unfold generate_facts at h
      split at h
      · simp at h
      · rename_i hcond
        split at h
        · rename_i existing heq
          simp only [Prod.mk.injEq, HttpResponse.ok_cache.injEq] at h
          obtain ⟨hc1, hd, he⟩ := h
          have hne : (req.video_id.isEmpty || req.title.isEmpty) = false := by
            simpa using hcond
          constructor
          · unfold generate_facts
            rw [← hc1, ← hd]
            simp [hne, heq]
          · rw [← he]
            exact Nat.zero_le 1
        · split at h
          · simp at h
          · simp at h
          · simp at h

/-- Witness for C3: a concrete cache hit, then the same request again. -/
theorem c3_cache_idempotence_witness :
    generate_facts ⟨true, fun _ => none, none, "T".toList⟩
        [("v".toList,
          ⟨"v".toList, "T".toList, "general".toList, "N/A".toList, "T".toList, "Z".toList,
           .general "T".toList "v".toList none [] [] .default_range,
           [⟨10, "0123456789".toList⟩]⟩)]
        ⟨"v".toList, "T".toList, none, none⟩ =
      ([("v".toList,
          ⟨"v".toList, "T".toList, "general".toList, "N/A".toList, "T".toList, "Z".toList,
           .general "T".toList "v".toList none [] [] .default_range,
           [⟨10, "0123456789".toList⟩]⟩)],
       .ok_cache
         ⟨"v".toList, "T".toList, "general".toList, "N/A".toList, "T".toList, "Z".toList,
          .general "T".toList "v".toList none [] [] .default_range,
          [⟨10, "0123456789".toList⟩]⟩,
       ⟨0, 0, 0⟩) ∧
    (generate_facts ⟨true, fun _ => none, none, "T".toList⟩
        [("v".toList,
          ⟨"v".toList, "T".toList, "general".toList, "N/A".toList, "T".toList, "Z".toList,
           .general "T".toList "v".toList none [] [] .default_range,
           [⟨10, "0123456789".toList⟩]⟩)]
        ⟨"v".toList, "T".toList, none, none⟩ =
      ([("v".toList,
          ⟨"v".toList, "T".toList, "general".toList, "N/A".toList, "T".toList, "Z".toList,
           .general "T".toList "v".toList none [] [] .default_range,
           [⟨10, "0123456789".toList⟩]⟩)],
       .ok_cache
         ⟨"v".toList, "T".toList, "general".toList, "N/A".toList, "T".toList, "Z".toList,
          .general "T".toList "v".toList none [] [] .default_range,
          [⟨10, "0123456789".toList⟩]⟩,
       ⟨0, 0, 0⟩) ∧
      (⟨0, 0, 0⟩ : Effects).generator_calls ≤ 1) :=
  ⟨(c3_cache_idempotence ⟨true, fun _ => none, none, "T".toList⟩
      ⟨true, fun _ => none, none, "T".toList⟩
      [("v".toList,
        ⟨"v".toList, "T".toList, "general".toList, "N/A".toList, "T".toList, "Z".toList,
         .general "T".toList "v".toList none [] [] .default_range,
         [⟨10, "0123456789".toList⟩]⟩)]
      ⟨"v".toList, "T".toList, none, none⟩
      ⟨"v".toList, "T".toList, "general".toList, "N/A".toList, "T".toList, "Z".toList,
       .general "T".toList "v".toList none [] [] .default_range,
       [⟨10, "0123456789".toList⟩]⟩
      [("v".toList,
        ⟨"v".toList, "T".toList, "general".toList, "N/A".toList, "T".toList, "Z".toList,
         .general "T".toList "v".toList none [] [] .default_range,
         [⟨10, "0123456789".toList⟩]⟩)]
      ⟨0, 0, 0⟩).1 (by decide) (by decide),
   (c3_cache_idempotence ⟨true, fun _ => none, none, "T".toList⟩
      ⟨true, fun _ => none, none, "T".toList⟩
      [("v".toList,
        ⟨"v".toList, "T".toList, "general".toList, "N/A".toList, "T".toList, "Z".toList,
         .general "T".toList "v".toList none [] [] .default_range,
         [⟨10, "0123456789".toList⟩]⟩)]
      ⟨"v".toList, "T".toList, none, none⟩
      ⟨"v".toList, "T".toList, "general".toList, "N/A".toList, "T".toList, "Z".toList,
       .general "T".toList "v".toList none [] [] .default_range,
       [⟨10, "0123456789".toList⟩]⟩
      [("v".toList,
        ⟨"v".toList, "T".toList, "general".toList, "N/A".toList, "T".toList, "Z".toList,
         .general "T".toList "v".toList none [] [] .default_range,
         [⟨10, "0123456789".toList⟩]⟩)]
      ⟨0, 0, 0⟩).2
     (Or.inr (by decide))⟩

/-! ## Claim C6 — the transcript sampling of the general prompt builder -/

/-- A 20-entry transcript, on which the claimed sampling ("first 10, last 10")
would keep all 20 entries. -/
def c6_transcript : List TranscriptEntry := (List.range 20).map (fun i => ⟨(i : Int), []⟩)

/-- Claim C6, evaluated at the failing input: on a 20-entry transcript the
sampler keeps only 19 lines — the entry at index 10, i.e. the 10th from the
end, is dropped (the code tests `i > len - 10`, the last NINE entries, not
ten), although its neighbours at indices 9 and 11 are kept. -/
theorem c6_sampling_off_by_one :
    (general_transcript_lines c6_transcript).length = 19 ∧
    fmt_line ⟨10, []⟩ ∉ general_transcript_lines c6_transcript ∧
    fmt_line ⟨9, []⟩ ∈ general_transcript_lines c6_transcript ∧
    fmt_line ⟨11, []⟩ ∈ general_transcript_lines c6_transcript := by
  decide

/-! ## Claim C9 — no cache write on HTTP error responses -/

/-- Claim C9: whenever the endpoint answers an HTTP error status (400 or 500)
the cache is left unchanged — a `<videoId>.json` entry appears only after a
complete facts payload has been assembled. -/
theorem c9_no_cache_write_on_error (env : Env) (cache : Cache) (req : RequestData)
    (c1 : Cache) (r : HttpResponse) (e : Effects)
    (h : generate_facts env cache req = (c1, r, e))
    (herr : r = .bad_request ∨ r = .server_error) : c1 = cache := by
  unfold generate_facts at h
  split at h
  · simp only [Prod.mk.injEq] at h
    exact h.1.symm
  · split at h
    · simp only [Prod.mk.injEq] at h
      rcases herr with rfl | rfl <;> simp at h
    · split at h
      · simp only [Prod.mk.injEq] at h
        exact h.1.symm
      · simp only [Prod.mk.injEq] at h
        exact h.1.symm
      · simp only [Prod.mk.injEq] at h
        rcases herr with rfl | rfl <;> simp at h

/-- Witness for C9: a request with a missing video id leaves the cache as is. -/
theorem c9_no_cache_write_on_error_witness :
    (generate_facts ⟨true, fun _ => none, none, "T".toList⟩ [] ⟨[], "T".toList, none, none⟩).1 =
      [] :=
  c9_no_cache_write_on_error ⟨true, fun _ => none, none, "T".toList⟩ []
    ⟨[], "T".toList, none, none⟩
    (generate_facts ⟨true, fun _ => none, none, "T".toList⟩ [] ⟨[], "T".toList, none, none⟩).1
    (generate_facts ⟨true, fun _ => none, none, "T".toList⟩ [] ⟨[], "T".toList, none, none⟩).2.1
    (generate_facts ⟨true, fun _ => none, none, "T".toList⟩ [] ⟨[], "T".toList, none, none⟩).2.2
    rfl (Or.inl (by decide))

/-! ## Claim C10 — artist sentinel of persisted general records -/

/-- Claim C10: every generated payload with `contentType = "general"` has
`song` equal to the raw request title, and `artist` equal to `"Unknown"` when
the classifier judged the title music (so general generation was reached via
the failed-parse fallback) and `"N/A"` when it judged it non-music. -/
theorem c10_general_artist_sentinel (env : Env) (cache : Cache) (req : RequestData)
    (c1 : Cache) (d : FactsData) (e : Effects)
    (h : generate_facts env cache req = (c1, .ok_generated d, e))
    (hg : d.contentType = "general".toList) :
    d.artist = (if (is_likely_music_video req.title).1 then "Unknown".toList
                else "N/A".toList) ∧
      d.song = req.title := by
  unfold generate_facts at h
  split at h
  · simp at h
  · split at h
    · simp at h
    · rcases hrg : route_generation env req env.transcript with ⟨res, n, ct, a, s⟩
      rw [hrg] at h
      rcases res with e | gv
      · simp at h
      · rcases gv with bfacts | ⟨facts, prompt⟩
        · simp at h
        · simp only [Prod.mk.injEq, HttpResponse.ok_generated.injEq] at h
          obtain ⟨-, hd, -⟩ := h
          rw [← hd] at hg
          rw [← hd]
          have hct : ct = "general".toList := hg
          unfold route_generation at hrg
          split at hrg
          · rename_i hmus
            split at hrg
            · simp only [RoutedGen.mk.injEq] at hrg
              have ha : a = "Unknown".toList := hrg.2.2.2.1.symm
              have hs : s = req.title := hrg.2.2.2.2.symm
              simp [hmus, ha, hs]
            · simp only [RoutedGen.mk.injEq] at hrg
              exact absurd (hrg.2.2.1.trans hct) (by decide)
          · rename_i hmus
            simp only [RoutedGen.mk.injEq] at hrg
            have ha : a = "N/A".toList := hrg.2.2.2.1.symm
            have hs : s = req.title := hrg.2.2.2.2.symm
            have hmusf : (is_likely_music_video req.title).1 = false := by
              simpa using hmus
            simp [hmusf, ha, hs]

/-- Witness for C10: a non-music title generates a general record with
`artist = "N/A"` and `song` the raw title. -/
theorem c10_general_artist_sentinel_witness :
    (⟨"v1".toList, "Breaking News".toList, "general".toList, "N/A".toList,
        "Breaking News".toList, "T".toList,
        .general "Breaking News".toList "v1".toList none [] [] .default_range,
        [⟨10, "A fact about the news!".toList⟩]⟩ : FactsData).artist =
      (if (is_likely_music_video "Breaking News".toList).1 then "Unknown".toList
       else "N/A".toList) ∧
    (⟨"v1".toList, "Breaking News".toList, "general".toList, "N/A".toList,
        "Breaking News".toList, "T".toList,
        .general "Breaking News".toList "v1".toList none [] [] .default_range,
        [⟨10, "A fact about the news!".toList⟩]⟩ : FactsData).song =
      "Breaking News".toList :=
  c10_general_artist_sentinel
    ⟨true, fun _ => some [⟨10, "A fact about the news!".toList⟩], none, "T".toList⟩ []
    ⟨"v1".toList, "Breaking News".toList, none, none⟩
    [("v1".toList,
      ⟨"v1".toList, "Breaking News".toList, "general".toList, "N/A".toList,
       "Breaking News".toList, "T".toList,
       .general "Breaking News".toList "v1".toList none [] [] .default_range,
       [⟨10, "A fact about the news!".toList⟩]⟩)]
    ⟨"v1".toList, "Breaking News".toList, "general".toList, "N/A".toList,
     "Breaking News".toList, "T".toList,
     .general "Breaking News".toList "v1".toList none [] [] .default_range,
     [⟨10, "A fact about the news!".toList⟩]⟩
    ⟨1, 1, 1⟩ (by decide) (by decide)

/-! ## Claim C8 — markdown fence stripping (spec-modelled) -/

/-- A single-character separator cannot be found at any position strictly
inside a list that does not contain it. -/
lemma single_sep_not_in_append (a : Char) (l X : Str) (hl : ∀ c ∈ l, c ≠ a) :
    ∀ i, i < l.length → ([a].isPrefixOf ((l ++ X).drop i)) = false := by
  induction l with
  | nil => intro i hi; simp at hi
  | cons c t ih =>
    intro i hi
    cases i with
    | zero =>
      have hca : c ≠ a := hl c (List.mem_cons_self c t)
      simp only [List.cons_append, List.drop_zero, List.isPrefixOf, Bool.and_true]
      exact beq_eq_false_iff_ne.mpr (fun h => hca h.symm)
    | succ j =>
      have hj : j < t.length := by simpa using hi
      have := ih (fun d hd => hl d (List.mem_cons_of_mem c hd)) j hj
      simpa using this

/-- The length of `dropWhile` never exceeds the input's length. -/
lemma dropWhile_length_le (p : Char → Bool) (l : Str) :
    (l.dropWhile p).length ≤ l.length := by
  induction l with
  | nil => simp
  | cons a t ih =>
    rw [List.dropWhile_cons]
    split
    · exact Nat.le_trans ih (Nat.le_succ _)
    · exact Nat.le_refl _

/-- Stripping surrounding whitespace from a body with clean edges followed by
a single trailing newline recovers the body. -/
lemma pyStrip_append_nl (body : Str) (hne : body ≠ [])
    (hfront : body.dropWhile isSpaceChar = body)
    (hback : body.reverse.dropWhile isSpaceChar = body.reverse) :
    pyStrip (body ++ ['\n']) = body := by
  obtain ⟨b, t, rfl⟩ := List.exists_cons_of_ne_nil hne
  have hb : isSpaceChar b = false := by
    by_contra hb
    rw [Bool.not_eq_false] at hb
    rw [List.dropWhile_cons, if_pos hb] at hfront
    have hlen := congrArg List.length hfront
    have hle := dropWhile_length_le isSpaceChar t
    simp at hlen
    omega
  unfold pyStrip
  rw [show (b :: t) ++ ['\n'] = b :: (t ++ ['\n']) from rfl]
  rw [List.dropWhile_cons, if_neg (by simp [hb])]
  rw [show b :: (t ++ ['\n']) = (b :: t) ++ ['\n'] from rfl]
  rw [List.reverse_append]
  rw [show (['\n'] : Str).reverse ++ (b :: t).reverse = '\n' :: (b :: t).reverse from rfl]
  rw [List.dropWhile_cons, if_pos (show isSpaceChar '\n' = true by decide)]
  rw [hback]
  exact List.reverse_reverse _

/-- Claim C8 (spec-modelled): for every raw model output wrapped in a fenced
code block (with a language tag free of newlines and a body with clean
edges), the post-processing strips the fence markers, and structural parsing
receives exactly the unwrapped body. -/
theorem c8_fence_stripping (structural_parse : Str → Option (List Fact)) (lang body : Str)
    (hlang : ∀ c ∈ lang, c ≠ '\n')
    (hne : body ≠ [])
    (hfront : body.dropWhile isSpaceChar = body)
    (hback : body.reverse.dropWhile isSpaceChar = body.reverse) :
    strip_markdown_fences (fence_wrap lang body) = body ∧
    legacy_postprocess_and_parse structural_parse (fence_wrap lang body) =
      structural_parse body := by
  have hfw : fence_wrap lang body =
      "```".toList ++ (lang ++ "\n".toList ++ (body ++ '\n' :: "```".toList)) := by
    simp [fence_wrap]
  have hpre : ("```".toList).isPrefixOf (fence_wrap lang body) = true := by
    rw [hfw]
    exact List.isPrefixOf_iff_prefix.mpr (List.prefix_append _ _)
  have hsuf : ("```".toList).isSuffixOf (fence_wrap lang body) = true := by
    have hfw2 : fence_wrap lang body =
        ("```".toList ++ (lang ++ "\n".toList ++ (body ++ ['\n']))) ++ "```".toList := by
      simp [fence_wrap]
    rw [hfw2]
    exact List.isSuffixOf_iff_suffix.mpr (List.suffix_append _ _)
  have hlen : 7 ≤ (fence_wrap lang body).length := by
    have h3 : ("```".toList : Str).length = 3 := rfl
    have h1 : ("\n".toList : Str).length = 1 := rfl
    have h4 : (('\n' :: "```".toList : Str)).length = 4 := rfl
    rw [hfw]
    simp only [List.length_append, h3, h1, h4]
    omega
  have hdrop3 : (fence_wrap lang body).drop 3 =
      lang ++ "\n".toList ++ (body ++ '\n' :: "```".toList) := by
    rw [hfw]
    exact List.drop_left' (by rfl)
  have hsplit : splitOnce "\n".toList ((fence_wrap lang body).drop 3) =
      some (lang, body ++ '\n' :: "```".toList) := by
    rw [hdrop3]
    refine splitOnce_append_first _ _ _ (by decide) ?_
    intro i hi
    rw [List.append_assoc]
    exact single_sep_not_in_append '\n' lang
      ("\n".toList ++ (body ++ '\n' :: "```".toList)) hlang i hi
  have hlen2 : (body ++ '\n' :: "```".toList).length - 3 = body.length + 1 := by
    rw [List.length_append]
    show body.length + 4 - 3 = body.length + 1
    omega
  have htake : (body ++ '\n' :: "```".toList).take (body.length + 1) = body ++ ['\n'] := by
    rw [show body ++ '\n' :: "```".toList = (body ++ ['\n']) ++ "```".toList by simp]
    exact List.take_left' (by simp)
  have hstrip : strip_markdown_fences (fence_wrap lang body) = body := by
    unfold strip_markdown_fences
    simp only [hpre, hsuf, decide_eq_true hlen, Bool.and_self, if_true]
    rw [hsplit]
    show pyStrip (List.take
      (List.length (body ++ '\n' :: "```".toList) - 3) (body ++ '\n' :: "```".toList)) = body
    rw [hlen2, htake]
    exact pyStrip_append_nl body hne hfront hback
  exact ⟨hstrip, by unfold legacy_postprocess_and_parse; rw [hstrip]⟩

/-- A concrete structural parser for the C8 witness. -/
def c8_parse : Str → Option (List Fact) := fun _ => none

/-- Witness for C8 at a concrete fenced output. -/
theorem c8_fence_stripping_witness :
    strip_markdown_fences (fence_wrap "json".toList "RAW FACTS OUTPUT".toList) =
      "RAW FACTS OUTPUT".toList ∧
    legacy_postprocess_and_parse c8_parse (fence_wrap "json".toList "RAW FACTS OUTPUT".toList) =
      c8_parse "RAW FACTS OUTPUT".toList :=
  c8_fence_stripping c8_parse "json".toList "RAW FACTS OUTPUT".toList
    (by decide) (by decide) (by decide) (by decide)

end PopUpVideo
